import Mathlib

/-!
Verification of backRenda, an inventory and point-of-sale backend (`src/index.js`).

A shallow embedding of the eight Express handlers of `src/index.js` over an
explicit model of the SQLite store `tienda.db`, followed by theorems about the
sale, restock, create-product and monthly-revenue workflows.

Modelling conventions (each is visible in the definitions below):

* The store is the three tables of lines 12-44, each a list of rows in
  insertion order, together with the `sqlite_sequence` counter that
  `AUTOINCREMENT` keeps per table.
* A handler is a function `Store → … → Store × Respuesta`; one request runs
  to completion before the next one starts (sequential execution).
* `cantidad` values are integers (`Int`).
* `precio` and `costo_total` are IEEE-754 binary64 numbers (`F64`), the type of
  a JavaScript number and of a SQLite `REAL`; products and sums are rounded to
  nearest, ties to even, with gradual underflow and overflow to infinity. The
  two zeros are identified: the program never divides and `JSON.stringify`
  prints both as `0`. `NaN` is the `none` of `Option F64`; the same `none` is
  SQL `NULL`, which is what binding `NaN` stores, and both are sent as `null`.
* The accumulation SQLite's `sum()` performs over the non-NULL values of a
  group belongs to the engine and differs between SQLite releases; it is the
  parameter `suma` of the handlers that aggregate.
* A JSON body field is `Option _`: `none` stands for an absent (`undefined`)
  or `null` field.
* The route parameter `:id` is a natural number; it is never empty, so the
  test `!id` of line 134 is always false.
* SQLite statements do not fail for environmental reasons (disk, locking);
  the `NOT NULL` constraints of `productos` are modelled. Foreign keys are not
  enforced (SQLite's default; the source never enables them).
* `CURRENT_TIMESTAMP` is the argument `ahora` of every handler.
-/

namespace BackRenda

/-! ## Binary64 numbers -/

/-- A binary64 number other than `NaN`: the dyadic rational `m * 2 ^ e`, kept
with `m` odd (or `0 * 2 ^ 0`), or an infinity. -/
inductive F64 where
  | finito (m : Int) (e : Int)
  | inf (neg : Bool)
deriving DecidableEq, Repr

/-- Auxiliary recursion of `bits`. -/
def bitsAux : Nat → Nat → Nat
  | 0, _ => 0
  | fuel + 1, n => if n = 0 then 0 else bitsAux fuel (n / 2) + 1

/-- Number of binary digits of `n`. -/
def bits (n : Nat) : Nat := bitsAux n n

/-- Removes trailing zero bits of `m`, raising the exponent accordingly. -/
def quitarCeros : Nat → Nat → Int → Nat × Int
  | 0, m, e => (m, e)
  | fuel + 1, m, e => if m % 2 = 0 then quitarCeros fuel (m / 2) (e + 1) else (m, e)

/-- The number zero. -/
def F64.cero : F64 := .finito 0 0

/-- The representable value `± m * 2 ^ e` in lowest terms. -/
def normalizar (neg : Bool) (m : Nat) (e : Int) : F64 :=
  if m = 0 then F64.cero
  else
    let r := quitarCeros (bits m) m e
    .finito (if neg then -(r.1 : Int) else (r.1 : Int)) r.2

/-- Rounding of the exact value `± m * 2 ^ e` to binary64: 53 significant bits,
least exponent `-1074`, nearest value with ties to the even significand,
infinity from `2 ^ 1024` on. -/
def redondear (neg : Bool) (m : Nat) (e : Int) : F64 :=
  if m = 0 then F64.cero
  else
    let q : Int := max (e + (bits m : Int) - 53) (-1074)
    if q ≤ e then
      if e + (bits m : Int) > 1024 then .inf neg else normalizar neg m e
    else
      let sh := (q - e).toNat
      let k := m / 2 ^ sh
      let r := m % 2 ^ sh
      let half := 2 ^ (sh - 1)
      let k' := if r > half ∨ (r = half ∧ k % 2 = 1) then k + 1 else k
      if q + (bits k' : Int) > 1024 then .inf neg else normalizar neg k' q

/-- The JavaScript number an integer literal denotes. -/
def F64.ofInt (n : Int) : F64 := redondear (decide (n < 0)) n.natAbs 0

/-- The JavaScript product `a * b`; `none` is `NaN`. -/
def F64.mul : F64 → F64 → Option F64
  | .finito m1 e1, .finito m2 e2 =>
    some (redondear (decide (m1 * m2 < 0)) (m1.natAbs * m2.natAbs) (e1 + e2))
  | .finito m _, .inf b => if m = 0 then none else some (.inf (xor (decide (m < 0)) b))
  | .inf a, .finito m _ => if m = 0 then none else some (.inf (xor a (decide (m < 0))))
  | .inf a, .inf b => some (.inf (xor a b))

/-- The binary64 sum `a + b`; `none` is `NaN`. -/
def F64.add : F64 → F64 → Option F64
  | .finito m1 e1, .finito m2 e2 =>
    if m1 = 0 then some (.finito m2 e2)
    else if m2 = 0 then some (.finito m1 e1)
    else
      let e := min e1 e2
      let t : Int := m1 * 2 ^ (e1 - e).toNat + m2 * 2 ^ (e2 - e).toNat
      some (redondear (decide (t < 0)) t.natAbs e)
  | .finito _ _, .inf b => some (.inf b)
  | .inf a, .finito _ _ => some (.inf a)
  | .inf a, .inf b => if a = b then some (.inf a) else none

/-- Plain accumulation in a double, from `0.0` and in scan order, as SQLite's
`sum()` does before release 3.44 (later releases add a compensation term). -/
def sumaSimple (xs : List F64) : Option F64 :=
  xs.foldl (fun acc x => acc.bind (fun a => F64.add a x)) (some F64.cero)

/-! ## Data model (lines 12-44) -/

/-- Whether `anio` is a leap year. -/
def bisiesto (anio : Nat) : Bool :=
  (anio % 4 = 0 ∧ anio % 100 ≠ 0) ∨ anio % 400 = 0

/-- Number of days of a month. -/
def diasDelMes (anio mes : Nat) : Nat :=
  if mes = 2 then (if bisiesto anio then 29 else 28)
  else if mes = 4 ∨ mes = 6 ∨ mes = 9 ∨ mes = 11 then 30
  else 31

/-- A `CURRENT_TIMESTAMP` value, `YYYY-MM-DD HH:MM:SS`: a calendar date and a
time of day. -/
structure Fecha where
  anio : Nat
  mes : Nat
  dia : Nat
  hora : Nat
  minuto : Nat
  segundo : Nat
  valida : anio ≤ 9999 ∧ 1 ≤ mes ∧ mes ≤ 12 ∧ 1 ≤ dia ∧ dia ≤ diasDelMes anio mes ∧
    hora ≤ 23 ∧ minuto ≤ 59 ∧ segundo ≤ 59
deriving DecidableEq

/-- Row of table `productos` (lines 14-20). -/
structure Producto where
  id : Nat
  nombre : String
  precio : F64
  cantidad : Int
  fecha_creacion : Fecha
  imagen : Option String
  categoria : Option String
deriving DecidableEq

/-- Row of table `productos_vendidos` (lines 23-31); `precio` and `costo_total`
have no `NOT NULL` constraint. -/
structure ProductoVendido where
  id : Nat
  producto_id : Nat
  cantidad : Int
  fecha : Fecha
  precio : Option F64
  costo_total : Option F64
deriving DecidableEq

/-- Row of table `registro_productos` (lines 34-41). -/
structure RegistroProducto where
  id : Nat
  producto_id : Nat
  cantidad : Int
  accion : String
  fecha : Fecha
deriving DecidableEq

/-- The database: three tables and their `sqlite_sequence` counters. -/
structure Store where
  productos : List Producto
  productos_vendidos : List ProductoVendido
  registro_productos : List RegistroProducto
  seq_productos : Nat
  seq_vendidos : Nat
  seq_registro : Nat
deriving DecidableEq

/-- The database right after the `CREATE TABLE IF NOT EXISTS` statements ran on
a fresh file. -/
def Store.vacio : Store :=
  ⟨[], [], [], 0, 0, 0⟩

/-- The rowid `INTEGER PRIMARY KEY AUTOINCREMENT` assigns to the next inserted
row: one more than the largest rowid the table holds or has ever held. -/
def siguienteId (ids : List Nat) (seq : Nat) : Nat :=
  max seq (ids.foldr max 0) + 1

/-! ## Requests and responses -/

/-- JSON body of `POST /api/productos` (line 48). -/
structure CuerpoProducto where
  nombre : Option String
  precio : Option F64
  cantidad : Option Int
  categoria : Option String
  imagen : Option String
deriving DecidableEq

/-- One row of the `GET /api/ordenes` result (lines 190-195). -/
structure OrdenVista where
  orden_id : Nat
  fecha : Fecha
  cantidad : Int
  costo_total : Option F64
  nombre_producto : String
deriving DecidableEq

/-- What a handler sends back: an error with its status and `error` message, or
one of the success payloads, all of which have status 200. A numeric field
that is `none` is sent as `null`. -/
inductive Respuesta where
  | error (status : Nat) (error : String)
  | mensajeId (message : String) (id : Nat)
  | filas (rows : List Producto)
  | totalGanancias (totalGanancias : Option F64)
  | venta (message : String) (costo_total : Option F64) (cantidad_restante : Int)
  | ordenes (ordenes : List OrdenVista)
  | ordenesDia (warning : Option String) (ordenes : List ProductoVendido)
deriving DecidableEq

/-- HTTP status of a response; `res.json` without `res.status` sends 200. -/
def Respuesta.status : Respuesta → Nat
  | .error st _ => st
  | _ => 200

/-! ## SQL helpers -/

/-- The query `SELECT * FROM productos WHERE id = ?` read with `db.get`: the
first matching row, if any. -/
def buscarProducto (s : Store) (id : Nat) : Option Producto :=
  s.productos.find? (fun p => p.id = id)

/-- The statement `INSERT INTO productos (nombre, precio, cantidad, categoria,
imagen)`; yields the new store and `this.lastID`. -/
def insertarProducto (s : Store) (nombre : String) (precio : F64) (cantidad : Int)
    (categoria imagen : Option String) (ahora : Fecha) : Store × Nat :=
  let lastID := siguienteId (s.productos.map (fun p => p.id)) s.seq_productos
  ({ s with
      productos := s.productos ++ [⟨lastID, nombre, precio, cantidad, ahora, imagen, categoria⟩],
      seq_productos := lastID }, lastID)

/-- The statement `INSERT INTO registro_productos (producto_id, cantidad,
accion)`; yields the new store and `this.lastID`. -/
def insertarRegistro (s : Store) (producto_id : Nat) (cantidad : Int) (accion : String)
    (ahora : Fecha) : Store × Nat :=
  let lastID := siguienteId (s.registro_productos.map (fun r => r.id)) s.seq_registro
  ({ s with
      registro_productos := s.registro_productos ++ [⟨lastID, producto_id, cantidad, accion, ahora⟩],
      seq_registro := lastID }, lastID)

/-- The statement `INSERT INTO productos_vendidos (producto_id, cantidad,
precio, costo_total)`; yields the new store and `this.lastID`. A `NaN` bound to
`costo_total` is stored as `NULL`. -/
def insertarVenta (s : Store) (producto_id : Nat) (cantidad : Int) (precio : F64)
    (costo_total : Option F64) (ahora : Fecha) : Store × Nat :=
  let lastID := siguienteId (s.productos_vendidos.map (fun v => v.id)) s.seq_vendidos
  ({ s with
      productos_vendidos :=
        s.productos_vendidos ++ [⟨lastID, producto_id, cantidad, ahora, some precio, costo_total⟩],
      seq_vendidos := lastID }, lastID)

/-- The statement `UPDATE productos SET cantidad = cantidad + ? WHERE id = ?` (line 112). -/
def sumarCantidad (s : Store) (cantidad : Int) (id : Nat) : Store :=
  { s with
    productos := s.productos.map
      (fun p => if p.id = id then { p with cantidad := p.cantidad + cantidad } else p) }

/-- The statement `UPDATE productos SET cantidad = ? WHERE id = ?` (line 165). -/
def fijarCantidad (s : Store) (nuevaCantidad : Int) (id : Nat) : Store :=
  { s with
    productos := s.productos.map
      (fun p => if p.id = id then { p with cantidad := nuevaCantidad } else p) }

/-- Decimal digit of the units of `n`, as a character. -/
def digito (n : Nat) : Char :=
  Char.ofNat (48 + n % 10)

/-- The SQL function `strftime('%Y-%m', fecha)`. -/
def strftimeMes (f : Fecha) : String :=
  String.mk [digito (f.anio / 1000), digito (f.anio / 100), digito (f.anio / 10), digito f.anio,
    '-', digito (f.mes / 10), digito f.mes]

/-- The SQL function `strftime('%Y-%m-%d', fecha)`. -/
def strftimeDia (f : Fecha) : String :=
  String.mk [digito (f.anio / 1000), digito (f.anio / 100), digito (f.anio / 10), digito f.anio,
    '-', digito (f.mes / 10), digito f.mes, '-', digito (f.dia / 10), digito f.dia]

/-- The aggregate `SUM(col)` over the rows of one group: `NULL` values are
skipped, the result is `NULL` when no value is left, and otherwise what the
engine's accumulation `suma` gives. -/
def sqlSum (suma : List F64 → Option F64) (col : List (Option F64)) : Option F64 :=
  match col.filterMap (fun x => x) with
  | [] => none
  | x :: xs => suma (x :: xs)

/-- The distinct keys of a column, each at its first occurrence. -/
def claves : List String → List String
  | [] => []
  | k :: ks => k :: (claves ks).filter (fun j => j ≠ k)

/-- The aggregation `SELECT key, SUM(value) … GROUP BY key` over rows given as
key/value pairs: one output row per distinct key. -/
def groupBySum (suma : List F64 → Option F64) (rows : List (String × Option F64)) :
    List (String × Option F64) :=
  (claves (rows.map (fun r => r.1))).map
    (fun k => (k, sqlSum suma ((rows.filter (fun r => r.1 = k)).map (fun r => r.2))))

/-- Order of two timestamps, as SQLite compares their text form. -/
def Fecha.le (a b : Fecha) : Bool :=
  decide ([a.anio, a.mes, a.dia, a.hora, a.minuto, a.segundo]
    ≤ [b.anio, b.mes, b.dia, b.hora, b.minuto, b.segundo])

/-! ## Handlers -/

/-- Handler of `POST /api/productos` (lines 47-66). -/
def crearProducto (s : Store) (body : CuerpoProducto) (ahora : Fecha) : Store × Respuesta :=
  match body.nombre, body.precio, body.cantidad with
  | some nombre, some precio, some cantidad =>
    let (s1, lastID) := insertarProducto s nombre precio cantidad body.categoria body.imagen ahora
    -- line 58: `this.lastID` of the outer callback is the product's rowid
    let (s2, lastID2) := insertarRegistro s1 lastID cantidad "nuevo producto" ahora
    -- line 63: `this` of the inner callback is the log insert's statement
    (s2, .mensajeId "Producto agregado y registrado correctamente" lastID2)
  | _, _, _ =>
    -- a NULL in a NOT NULL column: the insert fails (line 52)
    (s, .error 400 "Error al agregar el producto")

/-- Handler of `GET /api/productos` (lines 68-77). -/
def obtenerProductos (s : Store) : Store × Respuesta :=
  (s, .filas s.productos)

/-- Handler of `GET /api/ganancias` (lines 79-102). -/
def ganancias (suma : List F64 → Option F64) (s : Store) (mes : Option String) :
    Store × Respuesta :=
  match mes with
  | none => (s, .error 400 "Mes no proporcionado")
  | some mesSeleccionado =>
    if mesSeleccionado = "" then (s, .error 400 "Mes no proporcionado")
    else
      let rows := groupBySum suma
        (((s.productos_vendidos.filter (fun v => strftimeMes v.fecha = mesSeleccionado)).map
          (fun v => (strftimeMes v.fecha, v.costo_total))))
      let totalGanancias := match rows with
        | [] => some F64.cero
        | r :: _ => r.2
      (s, .totalGanancias totalGanancias)

/-- Handler of `PUT /api/productos/:id` (lines 104-128). -/
def agregarCantidad (s : Store) (id : Nat) (cantidad : Option Int) (ahora : Fecha) :
    Store × Respuesta :=
  match cantidad with
  | none => (s, .error 400 "La cantidad debe ser un número positivo")
  | some cantidad =>
    if cantidad ≤ 0 then (s, .error 400 "La cantidad debe ser un número positivo")
    else
      let s1 := sumarCantidad s cantidad id
      let (s2, _) := insertarRegistro s1 id cantidad "cantidad agregada" ahora
      (s2, .mensajeId "Cantidad sumada y registrada correctamente" id)

/-- Handler of `POST /api/productos/:id/vender` (lines 130-180). -/
def vender (s : Store) (id : Nat) (cantidad : Option Int) (ahora : Fecha) : Store × Respuesta :=
  match cantidad with
  | none => (s, .error 400 "ID del producto y cantidad son requeridos")
  | some cantidad =>
    -- `!cantidad` is true exactly for 0 among the numbers
    if cantidad = 0 then (s, .error 400 "ID del producto y cantidad son requeridos")
    else
      match buscarProducto s id with
      | none => (s, .error 404 "Producto no encontrado")
      | some producto =>
        if producto.cantidad < cantidad then
          (s, .error 400 "No hay suficiente cantidad disponible para la venta")
        else
          let precioVenta := producto.precio
          let costoTotal := F64.mul precioVenta (F64.ofInt cantidad)
          let (s1, _) := insertarVenta s id cantidad precioVenta costoTotal ahora
          let nuevaCantidad := producto.cantidad - cantidad
          let s2 := fijarCantidad s1 nuevaCantidad id
          (s2, .venta "Venta registrada correctamente" costoTotal nuevaCantidad)

/-- Handler of `GET /api/ordenes` (lines 182-211). Rows with equal `fecha` keep the order
of the join. -/
def ordenes (s : Store) (mes : Option String) : Store × Respuesta :=
  match mes with
  | none => (s, .error 400 "Mes no proporcionado")
  | some mesSeleccionado =>
    if mesSeleccionado = "" then (s, .error 400 "Mes no proporcionado")
    else
      let joined : List OrdenVista := s.productos_vendidos.flatMap (fun pv =>
        (s.productos.filter (fun p => pv.producto_id = p.id)).map (fun p =>
          (⟨pv.id, pv.fecha, pv.cantidad, pv.costo_total, p.nombre⟩ : OrdenVista)))
      let rows := (joined.filter (fun o => strftimeMes o.fecha = mesSeleccionado)).mergeSort
        (fun a b => Fecha.le b.fecha a.fecha)
      (s, .ordenes rows)

/-- Handler of `GET /api/ganancias/dia` (lines 214-237). -/
def gananciasDia (suma : List F64 → Option F64) (s : Store) (dia : Option String) :
    Store × Respuesta :=
  match dia with
  | none => (s, .error 400 "Día no proporcionado")
  | some diaSeleccionado =>
    if diaSeleccionado = "" then (s, .error 400 "Día no proporcionado")
    else
      let rows := groupBySum suma
        (((s.productos_vendidos.filter (fun v => strftimeDia v.fecha = diaSeleccionado)).map
          (fun v => (strftimeDia v.fecha, v.costo_total))))
      let totalGanancias := match rows with
        | [] => some F64.cero
        | r :: _ => r.2
      (s, .totalGanancias totalGanancias)

/-- Handler of `GET /api/ordenes/dia` (lines 239-273). -/
def ordenesDia (s : Store) (dia : Option String) : Store × Respuesta :=
  match dia with
  | none => (s, .error 400 "Día no proporcionado")
  | some diaSeleccionado =>
    if diaSeleccionado = "" then (s, .error 400 "Día no proporcionado")
    else
      let rows := s.productos_vendidos.filter (fun v => strftimeDia v.fecha = diaSeleccionado)
      if rows.length = 0 then
        (s, .ordenesDia (some "No se encontraron órdenes para la fecha seleccionada.") [])
      else (s, .ordenesDia none rows)

/-- A request to one of the eight routes. -/
inductive Peticion where
  | postProductos (body : CuerpoProducto)
  | getProductos
  | getGanancias (mes : Option String)
  | putProducto (id : Nat) (cantidad : Option Int)
  | postVender (id : Nat) (cantidad : Option Int)
  | getOrdenes (mes : Option String)
  | getGananciasDia (dia : Option String)
  | getOrdenesDia (dia : Option String)
deriving DecidableEq

/-- Routing: the handler registered for the request's method and path. -/
def atender (suma : List F64 → Option F64) (s : Store) (ahora : Fecha) :
    Peticion → Store × Respuesta
  | .postProductos body => crearProducto s body ahora
  | .getProductos => obtenerProductos s
  | .getGanancias mes => ganancias suma s mes
  | .putProducto id cantidad => agregarCantidad s id cantidad ahora
  | .postVender id cantidad => vender s id cantidad ahora
  | .getOrdenes mes => ordenes s mes
  | .getGananciasDia dia => gananciasDia suma s dia
  | .getOrdenesDia dia => ordenesDia s dia

/-- The store after serving a sequence of requests one after the other, each
with its own clock reading. -/
def atenderTodas (suma : List F64 → Option F64) (s : Store) : List (Fecha × Peticion) → Store
  | [] => s
  | (ahora, r) :: rs => atenderTodas suma (atender suma s ahora r).1 rs

/-- The request is a restock or a sale. -/
def Peticion.esStock : Peticion → Bool
  | .putProducto _ _ => true
  | .postVender _ _ => true
  | _ => false

/-- Quantity on hand of product `id`, if it exists. -/
def stock (s : Store) (id : Nat) : Option Int :=
  (buscarProducto s id).map (fun p => p.cantidad)

/-- Every product has a non-negative quantity on hand. -/
def noNegativo (s : Store) : Prop :=
  ∀ p ∈ s.productos, 0 ≤ p.cantidad

instance (s : Store) : Decidable (noNegativo s) := by
  unfold noNegativo
  infer_instance

/-! ## Calendar months, as the specification names them -/

/-- Value of a decimal digit character. -/
def valorDigito (c : Char) : Option Nat :=
  if 48 ≤ c.toNat ∧ c.toNat ≤ 57 then some (c.toNat - 48) else none

/-- The year and the month that a month token `YYYY-MM` names; `none` for any
other text. -/
def mesDeToken (m : String) : Option (Nat × Nat) :=
  match m.data with
  | [a, b, c, d, '-', e, f] =>
    match valorDigito a, valorDigito b, valorDigito c, valorDigito d, valorDigito e,
      valorDigito f with
    | some a, some b, some c, some d, some e, some f =>
      some (1000 * a + 100 * b + 10 * c + d, 10 * e + f)
    | _, _, _, _, _, _ => none
  | _ => none

/-- The timestamp `f` falls in the calendar month named by the token `m`. -/
def caeEnMes (m : String) (f : Fecha) : Prop :=
  mesDeToken m = some (f.anio, f.mes)

instance (m : String) (f : Fecha) : Decidable (caeEnMes m f) := by
  unfold caeEnMes
  infer_instance

/-- The sale records whose timestamp falls in the month named by `m`. -/
def ventasDelMes (s : Store) (m : String) : List ProductoVendido :=
  s.productos_vendidos.filter (fun v => caeEnMes m v.fecha)

/-! ## Concrete stores used to exercise the theorems -/

/-- A clock reading in May 2024. -/
def fechaEjemplo : Fecha := ⟨2024, 5, 17, 10, 30, 0, by decide⟩

/-- Body of the spec's scenario: Widget, price 10, quantity 5. -/
def cuerpoWidget : CuerpoProducto := ⟨some "Widget", some (F64.ofInt 10), some 5, none, none⟩

/-- The row the scenario's Widget gets in a fresh database. -/
def filaWidget : Producto := ⟨1, "Widget", F64.ofInt 10, 5, fechaEjemplo, none, none⟩

/-- The store after `POST /api/productos` of the Widget on a fresh database. -/
def tiendaWidget : Store := (crearProducto Store.vacio cuerpoWidget fechaEjemplo).1

/-- A product created with a negative quantity, which line 50 inserts as is. -/
def cuerpoDeudor : CuerpoProducto := ⟨some "Widget", some (F64.ofInt 10), some (-1), none, none⟩

/-- The store after `POST /api/productos` of `cuerpoDeudor` on a fresh database. -/
def tiendaDeudora : Store := (crearProducto Store.vacio cuerpoDeudor fechaEjemplo).1

/-- The Widget store after one restock of 10 units: one product, two log rows. -/
def tiendaReabastecida : Store := (agregarCantidad tiendaWidget 1 (some 10) fechaEjemplo).1

/-- A second product to create. -/
def cuerpoGadget : CuerpoProducto := ⟨some "Gadget", some (F64.ofInt 4), some 7, none, none⟩

/-- A restock, a sale that fails, a sale that succeeds and a sale of a product
that does not exist. -/
def peticionesEjemplo : List (Fecha × Peticion) :=
  [(fechaEjemplo, .putProducto 1 (some 10)), (fechaEjemplo, .postVender 1 (some 20)),
   (fechaEjemplo, .postVender 1 (some 15)), (fechaEjemplo, .postVender 9 (some (-2)))]

/-- The double nearest to `0.1`, which is what the JSON text `0.1` denotes. -/
def decimo : F64 := .finito 3602879701896397 (-55)

/-- Body of a product priced `0.1`. -/
def cuerpoCaramelo : CuerpoProducto := ⟨some "Caramelo", some decimo, some 10, none, none⟩

/-- The row `cuerpoCaramelo` gets in a fresh database. -/
def filaCaramelo : Producto := ⟨1, "Caramelo", decimo, 10, fechaEjemplo, none, none⟩

/-- The store after `POST /api/productos` of the Caramelo on a fresh database. -/
def tiendaCaramelo : Store := (crearProducto Store.vacio cuerpoCaramelo fechaEjemplo).1

/-! ## Auxiliary lemmas -/

theorem valorDigito_digito (n : Nat) : valorDigito (digito n) = some (n % 10) := by
  have h : ∀ i, i < 10 → valorDigito (Char.ofNat (48 + i)) = some i := by decide
  exact h (n % 10) (Nat.mod_lt _ (by decide))

theorem digito_of_valorDigito {c : Char} {d : Nat} (h : valorDigito c = some d) :
    d < 10 ∧ digito d = c := by
  unfold valorDigito at h
  split at h
  · rename_i hc
    obtain ⟨h1, h2⟩ := hc
    have hd : d = c.toNat - 48 := by
      simpa using h.symm
    have hlt : d < 10 := by omega
    refine ⟨hlt, ?_⟩
    have : 48 + d % 10 = c.toNat := by omega
    rw [digito, this]
    exact Char.ofNat_toNat c
  · simp at h

theorem strftimeMes_eq_iff (f : Fecha) (m : String) :
    strftimeMes f = m ↔ caeEnMes m f := by
  obtain ⟨ha, _, hm, _⟩ := f.valida
  unfold caeEnMes
  constructor
  · intro h
    subst h
    simp only [strftimeMes, mesDeToken, valorDigito_digito]
    simp only [Option.some.injEq, Prod.mk.injEq]
    omega
  · intro h
    unfold mesDeToken at h
    split at h
    · rename_i a b c d e g hdata
      split at h
      · rename_i a' b' c' d' e' g' h1 h2 h3 h4 h5 h6
        obtain ⟨ha1, ha2⟩ := digito_of_valorDigito h1
        obtain ⟨hb1, hb2⟩ := digito_of_valorDigito h2
        obtain ⟨hc1, hc2⟩ := digito_of_valorDigito h3
        obtain ⟨hd1, hd2⟩ := digito_of_valorDigito h4
        obtain ⟨he1, he2⟩ := digito_of_valorDigito h5
        obtain ⟨hg1, hg2⟩ := digito_of_valorDigito h6
        simp only [Option.some.injEq, Prod.mk.injEq] at h
        obtain ⟨hy, hmo⟩ := h
        have e1 : digito (f.anio / 1000) = a := by
          rw [← ha2]; unfold digito; congr 2; omega
        have e2 : digito (f.anio / 100) = b := by
          rw [← hb2]; unfold digito; congr 2; omega
        have e3 : digito (f.anio / 10) = c := by
          rw [← hc2]; unfold digito; congr 2; omega
        have e4 : digito f.anio = d := by
          rw [← hd2]; unfold digito; congr 2; omega
        have e5 : digito (f.mes / 10) = e := by
          rw [← he2]; unfold digito; congr 2; omega
        have e6 : digito f.mes = g := by
          rw [← hg2]; unfold digito; congr 2; omega
        have hs : m = String.mk m.data := rfl
        rw [hs, hdata, strftimeMes, e1, e2, e3, e4, e5, e6]
      · simp at h
    · simp at h


theorem find_map_mismo_id (f : Producto → Producto) (hf : ∀ p, (f p).id = p.id)
    (j : Nat) (l : List Producto) :
    (l.map f).find? (fun p => p.id = j) = (l.find? (fun p => p.id = j)).map f := by
  induction l with
  | nil => rfl
  | cons a l ih =>
    rw [List.map_cons, List.find?_cons, List.find?_cons, hf a]
    by_cases hj : a.id = j
    · simp [hj]
    · simp [hj, ih]

theorem actualizar_id (g : Producto → Producto) (hg : ∀ p, (g p).id = p.id) (id : Nat)
    (p : Producto) : (if p.id = id then g p else p).id = p.id := by
  split
  · exact hg p
  · rfl

theorem buscar_id {s : Store} {id : Nat} {p : Producto} (h : buscarProducto s id = some p) :
    p.id = id := by
  have := List.find?_some h
  simpa using this

theorem buscar_fijarCantidad (s : Store) (c : Int) (id j : Nat) :
    buscarProducto (fijarCantidad s c id) j
      = (buscarProducto s j).map (fun p => if p.id = id then { p with cantidad := c } else p) := by
  unfold buscarProducto fijarCantidad
  exact find_map_mismo_id _ (actualizar_id (fun p => { p with cantidad := c }) (fun _ => rfl) id)
    j s.productos

theorem buscar_sumarCantidad (s : Store) (c : Int) (id j : Nat) :
    buscarProducto (sumarCantidad s c id) j
      = (buscarProducto s j).map
          (fun p => if p.id = id then { p with cantidad := p.cantidad + c } else p) := by
  unfold buscarProducto sumarCantidad
  exact find_map_mismo_id _
    (actualizar_id (fun p => { p with cantidad := p.cantidad + c }) (fun _ => rfl) id) j s.productos

theorem buscar_otro {s : Store} {id j : Nat} (f : Producto → Producto) (hj : j ≠ id) :
    (buscarProducto s j).map (fun p => if p.id = id then f p else p) = buscarProducto s j := by
  cases h : buscarProducto s j with
  | none => rfl
  | some q =>
    have hq : q.id = j := buscar_id h
    simp [hq, hj]

theorem sumarCantidad_inexistente {s : Store} {id : Nat} (c : Int)
    (h : buscarProducto s id = none) : sumarCantidad s c id = s := by
  unfold buscarProducto at h
  rw [List.find?_eq_none] at h
  unfold sumarCantidad
  have : s.productos.map
      (fun p => if p.id = id then { p with cantidad := p.cantidad + c } else p) = s.productos := by
    conv_rhs => rw [← List.map_id s.productos]
    apply List.map_congr_left
    intro p hp
    have := h p hp
    simp at this
    simp [this]
  rw [this]

theorem vender_exito {s : Store} {id : Nat} {p : Producto} {n : Int} (ahora : Fecha)
    (hp : buscarProducto s id = some p) (h0 : n ≠ 0) (hle : n ≤ p.cantidad) :
    vender s id (some n) ahora
      = (fijarCantidad (insertarVenta s id n p.precio (F64.mul p.precio (F64.ofInt n)) ahora).1
          (p.cantidad - n) id,
         .venta "Venta registrada correctamente" (F64.mul p.precio (F64.ofInt n))
          (p.cantidad - n)) := by
  have hlt : ¬ p.cantidad < n := not_lt.mpr hle
  simp [vender, h0, hp, hlt]

theorem agregarCantidad_exito (s : Store) (id : Nat) {n : Int} (ahora : Fecha) (hn : 0 < n) :
    agregarCantidad s id (some n) ahora
      = ((insertarRegistro (sumarCantidad s n id) id n "cantidad agregada" ahora).1,
         .mensajeId "Cantidad sumada y registrada correctamente" id) := by
  have hpos : ¬ n ≤ 0 := not_le.mpr hn
  simp [agregarCantidad, hpos]

/-! ## Selling (`POST /api/productos/:id/vender`) -/

/-- C1 (as amended): a sale of more than the quantity on hand of an existing
product answers 400 and leaves the whole store as it was; the message is the
insufficient-stock one unless the requested quantity is 0, which line 134
rejects first as a missing field. -/
theorem vender_mas_que_stock (s : Store) (id : Nat) (p : Producto) (n : Int) (ahora : Fecha)
    (hp : buscarProducto s id = some p) (hn : p.cantidad < n) :
    (vender s id (some n) ahora).1 = s ∧
    (vender s id (some n) ahora).2.status = 400 ∧
    (n ≠ 0 → (vender s id (some n) ahora).2
      = .error 400 "No hay suficiente cantidad disponible para la venta") ∧
    (n = 0 → (vender s id (some n) ahora).2
      = .error 400 "ID del producto y cantidad son requeridos") := by
  by_cases h0 : n = 0
  · subst h0
    simp [vender, Respuesta.status]
  · simp [vender, h0, hp, hn, Respuesta.status]

/-- C2: a sale of `n` units, `0 < n ≤ stock`, of an existing product succeeds
with `costo_total = precio * n`, the product of line 153 in binary64, and
`cantidad_restante = stock - n`, leaves the product with `stock - n` units and
appends exactly one row to `productos_vendidos` carrying the product id, `n`,
the price and that same total. -/
theorem vender_ok (s : Store) (id : Nat) (p : Producto) (n : Int) (ahora : Fecha)
    (hp : buscarProducto s id = some p) (hn : 0 < n) (hle : n ≤ p.cantidad) :
    (vender s id (some n) ahora).2
      = .venta "Venta registrada correctamente" (F64.mul p.precio (F64.ofInt n))
          (p.cantidad - n) ∧
    (vender s id (some n) ahora).2.status = 200 ∧
    stock (vender s id (some n) ahora).1 id = some (p.cantidad - n) ∧
    ∃ v : ProductoVendido,
      (vender s id (some n) ahora).1.productos_vendidos = s.productos_vendidos ++ [v] ∧
      v.producto_id = id ∧ v.cantidad = n ∧ v.precio = some p.precio ∧
      v.costo_total = F64.mul p.precio (F64.ofInt n) := by
  have hid : p.id = id := buscar_id hp
  rw [vender_exito ahora hp (ne_of_gt hn) hle]
  refine ⟨rfl, rfl, ?_, ?_⟩
  · have hb : buscarProducto
        (insertarVenta s id n p.precio (F64.mul p.precio (F64.ofInt n)) ahora).1 id
          = some p := hp
    simp [stock, buscar_fijarCantidad, hb, hid]
  · exact ⟨_, rfl, rfl, rfl, rfl, rfl⟩

/-- C5 (the code at the failing input): on the scenario's store (Widget, price
10, 5 on hand) a sale of `-3` units is accepted with status 200, records a sale
of `-3` units for a total of `-30` and raises the quantity on hand to 8. -/
theorem vender_negativo_aceptado :
    (vender tiendaWidget 1 (some (-3)) fechaEjemplo).2
      = .venta "Venta registrada correctamente" (some (F64.ofInt (-30))) 8 ∧
    (vender tiendaWidget 1 (some (-3)) fechaEjemplo).2.status = 200 ∧
    stock tiendaWidget 1 = some 5 ∧
    stock (vender tiendaWidget 1 (some (-3)) fechaEjemplo).1 1 = some 8 ∧
    (vender tiendaWidget 1 (some (-3)) fechaEjemplo).1.productos_vendidos
      = [⟨1, 1, -3, fechaEjemplo, some (F64.ofInt 10), some (F64.ofInt (-30))⟩] := by
  decide

/-! ## Restocking (`PUT /api/productos/:id`) -/

/-- C6: restocking an existing product with `n > 0` succeeds, adds exactly `n`
to that product and changes nothing else in its row, leaves every other product
and every sale record as they were, and appends exactly one log entry with the
product id, `n` and the action `cantidad agregada`. -/
theorem agregarCantidad_ok (s : Store) (id : Nat) (p : Producto) (n : Int) (ahora : Fecha)
    (hp : buscarProducto s id = some p) (hn : 0 < n) :
    (agregarCantidad s id (some n) ahora).2
      = .mensajeId "Cantidad sumada y registrada correctamente" id ∧
    (agregarCantidad s id (some n) ahora).2.status = 200 ∧
    buscarProducto (agregarCantidad s id (some n) ahora).1 id
      = some { p with cantidad := p.cantidad + n } ∧
    stock (agregarCantidad s id (some n) ahora).1 id = some (p.cantidad + n) ∧
    (∀ j, j ≠ id → buscarProducto (agregarCantidad s id (some n) ahora).1 j = buscarProducto s j) ∧
    (agregarCantidad s id (some n) ahora).1.productos.length = s.productos.length ∧
    (agregarCantidad s id (some n) ahora).1.productos_vendidos = s.productos_vendidos ∧
    ∃ e : RegistroProducto,
      (agregarCantidad s id (some n) ahora).1.registro_productos = s.registro_productos ++ [e] ∧
      e.producto_id = id ∧ e.cantidad = n ∧ e.accion = "cantidad agregada" := by
  have hid : p.id = id := buscar_id hp
  rw [agregarCantidad_exito s id ahora hn]
  have hb : ∀ j, buscarProducto
      (insertarRegistro (sumarCantidad s n id) id n "cantidad agregada" ahora).1 j
        = buscarProducto (sumarCantidad s n id) j := fun _ => rfl
  refine ⟨rfl, rfl, ?_, ?_, ?_, ?_, rfl, ⟨_, rfl, rfl, rfl, rfl⟩⟩
  · rw [hb, buscar_sumarCantidad, hp]
    simp [hid]
  · rw [stock, hb, buscar_sumarCantidad, hp]
    simp [hid]
  · intro j hj
    rw [hb, buscar_sumarCantidad]
    exact buscar_otro _ hj
  · simp [insertarRegistro, sumarCantidad]

/-- C7: restocking with a quantity `n ≤ 0` answers 400 with the validation
message and returns the store unchanged, whatever the product id. -/
theorem agregarCantidad_no_positiva (s : Store) (id : Nat) (n : Int) (ahora : Fecha)
    (hn : n ≤ 0) :
    agregarCantidad s id (some n) ahora
      = (s, .error 400 "La cantidad debe ser un número positivo") ∧
    (agregarCantidad s id (some n) ahora).2.status = 400 := by
  simp [agregarCantidad, hn, Respuesta.status]

/-- C10: restocking a product id that is not in `productos` with `n > 0`
leaves the table `productos` as it was, still appends a log entry with that
id, `n` and the action `cantidad agregada`, and answers 200. -/
theorem agregarCantidad_inexistente (s : Store) (id : Nat) (n : Int) (ahora : Fecha)
    (hp : buscarProducto s id = none) (hn : 0 < n) :
    (agregarCantidad s id (some n) ahora).1.productos = s.productos ∧
    (agregarCantidad s id (some n) ahora).2
      = .mensajeId "Cantidad sumada y registrada correctamente" id ∧
    (agregarCantidad s id (some n) ahora).2.status = 200 ∧
    ∃ e : RegistroProducto,
      (agregarCantidad s id (some n) ahora).1.registro_productos = s.registro_productos ++ [e] ∧
      e.producto_id = id ∧ e.cantidad = n ∧ e.accion = "cantidad agregada" := by
  rw [agregarCantidad_exito s id ahora hn, sumarCantidad_inexistente n hp]
  exact ⟨rfl, rfl, rfl, ⟨_, rfl, rfl, rfl, rfl⟩⟩

/-! ## Non-negative stock -/

theorem noNegativo_agregarCantidad (s : Store) (id : Nat) (c : Option Int) (ahora : Fecha)
    (h : noNegativo s) : noNegativo (agregarCantidad s id c ahora).1 := by
  cases c with
  | none => exact h
  | some n =>
    by_cases hn : n ≤ 0
    · simpa [agregarCantidad, hn] using h
    · rw [agregarCantidad_exito s id ahora (not_le.mp hn)]
      intro q hq
      simp only [insertarRegistro, sumarCantidad, List.mem_map] at hq
      obtain ⟨p, hp, rfl⟩ := hq
      have := h p hp
      split
      · simp only
        omega
      · exact this

theorem noNegativo_vender (s : Store) (id : Nat) (c : Option Int) (ahora : Fecha)
    (h : noNegativo s) : noNegativo (vender s id c ahora).1 := by
  cases c with
  | none => exact h
  | some n =>
    by_cases h0 : n = 0
    · simpa [vender, h0] using h
    · cases hp : buscarProducto s id with
      | none => simpa [vender, h0, hp] using h
      | some p =>
        by_cases hlt : p.cantidad < n
        · simpa [vender, h0, hp, hlt] using h
        · rw [vender_exito ahora hp h0 (not_lt.mp hlt)]
          intro q hq
          simp only [insertarVenta, fijarCantidad, List.mem_map] at hq
          obtain ⟨r, hr, rfl⟩ := hq
          have := h r hr
          split
          · simp only
            omega
          · exact this

/-- C3: if every product has a non-negative quantity, then after any finite
sequence of restock and sale requests, with any ids and quantities and whether
or not each request succeeds, every product still has a non-negative quantity. -/
theorem stock_nunca_negativo (suma : List F64 → Option F64) (s : Store)
    (rs : List (Fecha × Peticion))
    (h0 : noNegativo s) (hrs : ∀ r ∈ rs, r.2.esStock = true) :
    noNegativo (atenderTodas suma s rs) := by
  induction rs generalizing s with
  | nil => exact h0
  | cons r rs ih =>
    obtain ⟨ahora, req⟩ := r
    have hreq : req.esStock = true := hrs (ahora, req) (List.mem_cons_self _ _)
    have hrest : ∀ r ∈ rs, r.2.esStock = true := fun r hr => hrs r (List.mem_cons_of_mem _ hr)
    apply ih _ _ hrest
    cases req with
    | putProducto id c => exact noNegativo_agregarCantidad s id c ahora h0
    | postVender id c => exact noNegativo_vender s id c ahora h0
    | postProductos _ => simp [Peticion.esStock] at hreq
    | getProductos => simp [Peticion.esStock] at hreq
    | getGanancias _ => simp [Peticion.esStock] at hreq
    | getOrdenes _ => simp [Peticion.esStock] at hreq
    | getGananciasDia _ => simp [Peticion.esStock] at hreq
    | getOrdenesDia _ => simp [Peticion.esStock] at hreq

/-! ## Creating a product (`POST /api/productos`) -/

/-- What a successful `POST /api/productos` does: the product row gets the next
rowid of `productos`, the log row gets the next rowid of `registro_productos`
and refers to the product's rowid, and the response carries the log row's
rowid. -/
theorem crearProducto_exito (s : Store) (nombre : String) (precio : F64) (cantidad : Int)
    (categoria imagen : Option String) (ahora : Fecha) :
    crearProducto s ⟨some nombre, some precio, some cantidad, categoria, imagen⟩ ahora
      = ({ s with
            productos := s.productos ++
              [⟨siguienteId (s.productos.map (fun p => p.id)) s.seq_productos,
                nombre, precio, cantidad, ahora, imagen, categoria⟩],
            seq_productos := siguienteId (s.productos.map (fun p => p.id)) s.seq_productos,
            registro_productos := s.registro_productos ++
              [⟨siguienteId (s.registro_productos.map (fun r => r.id)) s.seq_registro,
                siguienteId (s.productos.map (fun p => p.id)) s.seq_productos,
                cantidad, "nuevo producto", ahora⟩],
            seq_registro := siguienteId (s.registro_productos.map (fun r => r.id)) s.seq_registro },
         .mensajeId "Producto agregado y registrado correctamente"
           (siguienteId (s.registro_productos.map (fun r => r.id)) s.seq_registro)) := rfl

/-- C4 (the code at the failing input): with one product and two log rows in
the store, creating a product inserts it under id 2 but answers `id: 3`, the
rowid of the log entry; no product has id 3, so a sale addressed to the
returned id answers 404. -/
theorem crearProducto_devuelve_id_del_registro :
    tiendaReabastecida.productos.map (fun p => p.id) = [1] ∧
    tiendaReabastecida.registro_productos.map (fun r => r.id) = [1, 2] ∧
    (crearProducto tiendaReabastecida cuerpoGadget fechaEjemplo).2
      = .mensajeId "Producto agregado y registrado correctamente" 3 ∧
    (crearProducto tiendaReabastecida cuerpoGadget fechaEjemplo).1.productos
      = tiendaReabastecida.productos ++
          [⟨2, "Gadget", F64.ofInt 4, 7, fechaEjemplo, none, none⟩] ∧
    buscarProducto (crearProducto tiendaReabastecida cuerpoGadget fechaEjemplo).1 3 = none ∧
    (vender (crearProducto tiendaReabastecida cuerpoGadget fechaEjemplo).1 3 (some 1)
      fechaEjemplo).2 = .error 404 "Producto no encontrado" := by
  refine ⟨rfl, rfl, rfl, rfl, rfl, ?_⟩
  have hb : buscarProducto (crearProducto tiendaReabastecida cuerpoGadget fechaEjemplo).1 3
      = none := rfl
  simp [vender, hb]

/-- C1 (counterexample): a product created with quantity `-1` exists with stock
`-1`; a sale of `0 > -1` units fails with the missing-fields message of line
135, not with the insufficient-stock message. -/
theorem vender_cero_no_es_stock_insuficiente :
    buscarProducto tiendaDeudora 1
      = some ⟨1, "Widget", F64.ofInt 10, -1, fechaEjemplo, none, none⟩ ∧
    (0 : Int) > -1 ∧
    vender tiendaDeudora 1 (some 0) fechaEjemplo
      = (tiendaDeudora, .error 400 "ID del producto y cantidad son requeridos") ∧
    (vender tiendaDeudora 1 (some 0) fechaEjemplo).2
      ≠ .error 400 "No hay suficiente cantidad disponible para la venta" := by
  have hv : vender tiendaDeudora 1 (some 0) fechaEjemplo
      = (tiendaDeudora, .error 400 "ID del producto y cantidad son requeridos") := by
    simp [vender]
  rw [hv]
  exact ⟨rfl, by decide, rfl, by decide⟩

/-! ## The audit log (`registro_productos`) -/

/-- C8: the log before a request is an initial segment of the log after it. A
successful `POST /api/productos` appends one product row and exactly one log
entry, with action `nuevo producto`, the initial quantity and the new product's
id; a successful `PUT /api/productos/:id` appends exactly one entry, with
action `cantidad agregada`; a failed one of either, every sale and every read
query leave the log as it was. -/
theorem registro_solo_crece (suma : List F64 → Option F64) (s : Store) (ahora : Fecha)
    (req : Peticion) :
    s.registro_productos <+: (atender suma s ahora req).1.registro_productos ∧
    match req with
    | .postProductos body =>
      if (atender suma s ahora req).2.status = 200 then
        ∃ (p : Producto) (e : RegistroProducto),
          (atender suma s ahora req).1.productos = s.productos ++ [p] ∧
          (atender suma s ahora req).1.registro_productos = s.registro_productos ++ [e] ∧
          e.accion = "nuevo producto" ∧ some e.cantidad = body.cantidad ∧
          e.cantidad = p.cantidad ∧ e.producto_id = p.id
      else (atender suma s ahora req).1.registro_productos = s.registro_productos
    | .putProducto id cantidad =>
      if (atender suma s ahora req).2.status = 200 then
        ∃ e : RegistroProducto,
          (atender suma s ahora req).1.registro_productos = s.registro_productos ++ [e] ∧
          e.accion = "cantidad agregada" ∧ some e.cantidad = cantidad ∧ e.producto_id = id
      else (atender suma s ahora req).1.registro_productos = s.registro_productos
    | _ => (atender suma s ahora req).1.registro_productos = s.registro_productos := by
  have hrefl : s.registro_productos <+: s.registro_productos := ⟨[], List.append_nil _⟩
  cases req with
  | postProductos body =>
    obtain ⟨nombre, precio, cantidad, categoria, imagen⟩ := body
    cases nombre with
    | none => exact ⟨hrefl, by simp [atender, crearProducto, Respuesta.status]⟩
    | some nombre =>
      cases precio with
      | none => exact ⟨hrefl, by simp [atender, crearProducto, Respuesta.status]⟩
      | some precio =>
        cases cantidad with
        | none => exact ⟨hrefl, by simp [atender, crearProducto, Respuesta.status]⟩
        | some cantidad =>
          simp only [atender, crearProducto_exito, Respuesta.status, if_true]
          exact ⟨⟨_, rfl⟩, _, _, rfl, rfl, rfl, rfl, rfl, rfl⟩
  | putProducto id c =>
    cases c with
    | none => exact ⟨hrefl, by simp [atender, agregarCantidad, Respuesta.status]⟩
    | some n =>
      by_cases hn : n ≤ 0
      · exact ⟨by simp [atender, agregarCantidad, hn],
          by simp [atender, agregarCantidad, hn, Respuesta.status]⟩
      · simp only [atender, agregarCantidad_exito s id ahora (not_le.mp hn), Respuesta.status,
          if_true]
        exact ⟨⟨_, rfl⟩, _, rfl, rfl, rfl, rfl⟩
  | postVender id c =>
    have h : (vender s id c ahora).1.registro_productos = s.registro_productos := by
      cases c with
      | none => rfl
      | some n =>
        by_cases h0 : n = 0
        · simp [vender, h0]
        · cases hp : buscarProducto s id with
          | none => simp [vender, h0, hp]
          | some p =>
            by_cases hlt : p.cantidad < n
            · simp [vender, h0, hp, hlt]
            · rw [vender_exito ahora hp h0 (not_lt.mp hlt)]
              rfl
    exact ⟨by simp [atender, h], by simpa [atender] using h⟩
  | getProductos => exact ⟨hrefl, rfl⟩
  | getGanancias mes =>
    have h : (ganancias suma s mes).1 = s := by
      unfold ganancias
      split
      · rfl
      · split <;> rfl
    exact ⟨by simp [atender, h], by simp [atender, h]⟩
  | getOrdenes mes =>
    have h : (ordenes s mes).1 = s := by
      unfold ordenes
      split
      · rfl
      · split <;> rfl
    exact ⟨by simp [atender, h], by simp [atender, h]⟩
  | getGananciasDia dia =>
    have h : (gananciasDia suma s dia).1 = s := by
      unfold gananciasDia
      split
      · rfl
      · split <;> rfl
    exact ⟨by simp [atender, h], by simp [atender, h]⟩
  | getOrdenesDia dia =>
    have h : (ordenesDia s dia).1 = s := by
      unfold ordenesDia
      split
      · rfl
      · split
        · rfl
        · dsimp only
          split <;> rfl
    exact ⟨by simp [atender, h], by simp [atender, h]⟩

/-! ## Monthly revenue (`GET /api/ganancias`) -/

theorem claves_filter_un_grupo (m : String) (ks : List String) (h : ∀ k ∈ ks, k = m) :
    (claves ks).filter (fun j => j ≠ m) = [] := by
  induction ks with
  | nil => rfl
  | cons k ks ih =>
    have hk : k = m := h k (List.mem_cons_self _ _)
    have hks : ∀ x ∈ ks, x = m := fun x hx => h x (List.mem_cons_of_mem _ hx)
    subst hk
    have hk : decide (k ≠ k) = false := by simp
    rw [claves, List.filter_cons, hk, ih hks]
    rfl

theorem groupBySum_un_grupo (suma : List F64 → Option F64) (m : String)
    (r : String × Option F64) (rs : List (String × Option F64))
    (h : ∀ x ∈ r :: rs, x.1 = m) :
    groupBySum suma (r :: rs) = [(m, sqlSum suma ((r :: rs).map (fun x => x.2)))] := by
  have hr : r.1 = m := h r (List.mem_cons_self _ _)
  have hrs : ∀ k ∈ rs.map (fun x => x.1), k = m := by
    intro k hk
    obtain ⟨x, hx, rfl⟩ := List.mem_map.mp hk
    exact h x (List.mem_cons_of_mem _ hx)
  have hf : (r :: rs).filter (fun x => x.1 = m) = r :: rs := by
    rw [List.filter_eq_self]
    intro x hx
    simpa using h x hx
  simp only [groupBySum, List.map_cons, claves, hr, claves_filter_un_grupo m _ hrs, List.map_nil]
  rw [← hr] at hf ⊢
  rw [hf]
  rfl

theorem filter_strftimeMes (s : Store) (m : String) :
    s.productos_vendidos.filter (fun v => strftimeMes v.fecha = m) = ventasDelMes s m := by
  unfold ventasDelMes
  apply List.filter_congr
  intro v _
  simp only [decide_eq_decide]
  exact strftimeMes_eq_iff v.fecha m

theorem ganancias_eq (suma : List F64 → Option F64) (s : Store) (m : String) (hm : m ≠ "") :
    ganancias suma s (some m)
      = (s, .totalGanancias
          (if ventasDelMes s m = [] then some F64.cero
           else sqlSum suma ((ventasDelMes s m).map (fun v => v.costo_total)))) := by
  simp only [ganancias, hm, if_false, filter_strftimeMes]
  cases hv : ventasDelMes s m with
  | nil => rfl
  | cons v vs =>
    have hkeys : ∀ x ∈ (v :: vs).map (fun v => (strftimeMes v.fecha, v.costo_total)),
        x.1 = m := by
      intro x hx
      obtain ⟨w, hw, rfl⟩ := List.mem_map.mp hx
      have hw2 : w ∈ ventasDelMes s m := hv ▸ hw
      have := (List.mem_filter.mp hw2).2
      exact (strftimeMes_eq_iff w.fecha m).mpr (by simpa using this)
    rw [List.map_cons] at hkeys ⊢
    rw [groupBySum_un_grupo suma m _ _ hkeys]
    simp [List.map_map, Function.comp_def]

theorem sumaSimple_uno (x : F64) : sumaSimple [x] = some x := by
  cases x <;> simp [sumaSimple, F64.cero, F64.add]

/-- C9: for a non-empty month token `m`, `GET /api/ganancias` answers 200 with
`totalGanancias` equal to the `SUM` of `costo_total` over exactly the sale
records whose timestamp falls in the month `m` names, and to 0 when no record
falls in it; right after one successful sale of `n` units at price `c` in a
month that had no sale the result is `c * n`, for every accumulation `suma`
that returns a lone value as it is. -/
theorem ganancias_suma_del_mes (suma : List F64 → Option F64) (s : Store) (m : String)
    (hm : m ≠ "") :
    ganancias suma s (some m)
      = (s, .totalGanancias
          (if ventasDelMes s m = [] then some F64.cero
           else sqlSum suma ((ventasDelMes s m).map (fun v => v.costo_total)))) ∧
    (ganancias suma s (some m)).2.status = 200 ∧
    ((∀ v ∈ s.productos_vendidos, ¬ caeEnMes m v.fecha) →
      ganancias suma s (some m) = (s, .totalGanancias (some F64.cero))) ∧
    ((∀ x, suma [x] = some x) →
      ∀ (id : Nat) (p : Producto) (n : Int) (ahora : Fecha),
        caeEnMes m ahora → buscarProducto s id = some p → 0 < n → n ≤ p.cantidad →
        (∀ v ∈ s.productos_vendidos, ¬ caeEnMes m v.fecha) →
        (ganancias suma (vender s id (some n) ahora).1 (some m)).2
          = .totalGanancias (F64.mul p.precio (F64.ofInt n))) := by
  have hvacio : (∀ v ∈ s.productos_vendidos, ¬ caeEnMes m v.fecha) → ventasDelMes s m = [] := by
    intro hnone
    unfold ventasDelMes
    rw [List.filter_eq_nil_iff]
    intro v hv
    simpa using hnone v hv
  refine ⟨ganancias_eq suma s m hm, ?_, ?_, ?_⟩
  · rw [ganancias_eq suma s m hm]
    rfl
  · intro hnone
    rw [ganancias_eq suma s m hm, hvacio hnone]
    rfl
  · intro hsuma id p n ahora hmes hp hn hle hnone
    rw [ganancias_eq suma _ m hm, vender_exito ahora hp (ne_of_gt hn) hle]
    have hv : ventasDelMes
        (fijarCantidad (insertarVenta s id n p.precio (F64.mul p.precio (F64.ofInt n)) ahora).1
          (p.cantidad - n) id) m
        = [⟨siguienteId (s.productos_vendidos.map (fun v => v.id)) s.seq_vendidos, id, n, ahora,
            some p.precio, F64.mul p.precio (F64.ofInt n)⟩] := by
      have h0 := hvacio hnone
      unfold ventasDelMes at h0 ⊢
      simp [fijarCantidad, insertarVenta, List.filter_append, h0, hmes]
    rw [hv]
    cases hmul : F64.mul p.precio (F64.ofInt n) with
    | none => simp [sqlSum]
    | some x => simp [sqlSum, hsuma]

/-! ## The theorems at concrete inputs -/

/-- Witness for C1: 6 units of the Widget (5 on hand) cannot be sold. -/
theorem vender_mas_que_stock_witness :
    buscarProducto tiendaWidget 1 = some filaWidget ∧ filaWidget.cantidad < 6 ∧
    ((vender tiendaWidget 1 (some 6) fechaEjemplo).1 = tiendaWidget ∧
     (vender tiendaWidget 1 (some 6) fechaEjemplo).2.status = 400 ∧
     ((6 : Int) ≠ 0 → (vender tiendaWidget 1 (some 6) fechaEjemplo).2
       = .error 400 "No hay suficiente cantidad disponible para la venta") ∧
     ((6 : Int) = 0 → (vender tiendaWidget 1 (some 6) fechaEjemplo).2
       = .error 400 "ID del producto y cantidad son requeridos")) :=
  ⟨rfl, by decide, vender_mas_que_stock tiendaWidget 1 filaWidget 6 fechaEjemplo rfl (by decide)⟩

/-- Witness for C2: price 10, 5 on hand, 3 sold: total 30, 2 remaining. -/
theorem vender_ok_witness :
    buscarProducto tiendaWidget 1 = some filaWidget ∧ (0 : Int) < 3 ∧
    (3 : Int) ≤ filaWidget.cantidad ∧
    ((vender tiendaWidget 1 (some 3) fechaEjemplo).2
       = .venta "Venta registrada correctamente" (some (F64.ofInt 30)) 2 ∧
     (vender tiendaWidget 1 (some 3) fechaEjemplo).2.status = 200 ∧
     stock (vender tiendaWidget 1 (some 3) fechaEjemplo).1 1 = some 2 ∧
     ∃ v : ProductoVendido,
       (vender tiendaWidget 1 (some 3) fechaEjemplo).1.productos_vendidos
         = tiendaWidget.productos_vendidos ++ [v] ∧
       v.producto_id = 1 ∧ v.cantidad = 3 ∧ v.precio = some (F64.ofInt 10) ∧
       v.costo_total = some (F64.ofInt 30)) := by
  have h := vender_ok tiendaWidget 1 filaWidget 3 fechaEjemplo rfl (by decide) (by decide)
  have e1 : F64.mul filaWidget.precio (F64.ofInt 3) = some (F64.ofInt 30) := by decide
  have e2 : filaWidget.cantidad - 3 = 2 := by decide
  rw [e1, e2] at h
  exact ⟨rfl, by decide, by decide, h⟩

/-- The product of line 153 is the binary64 one: 3 units at price `0.1` cost
`1351079888211149 * 2 ^ (-52)`, printed `0.30000000000000004`, and not the
double nearest to `0.3`, which is `5404319552844595 * 2 ^ (-54)`. -/
theorem vender_decimo_por_tres :
    (vender tiendaCaramelo 1 (some 3) fechaEjemplo).2
      = .venta "Venta registrada correctamente" (some (.finito 1351079888211149 (-52))) 7 ∧
    (vender tiendaCaramelo 1 (some 3) fechaEjemplo).1.productos_vendidos
      = [⟨1, 1, 3, fechaEjemplo, some decimo, some (.finito 1351079888211149 (-52))⟩] ∧
    F64.finito 1351079888211149 (-52) ≠ .finito 5404319552844595 (-54) := by
  decide

/-- Witness for C3: the Widget store stays non-negative through a restock, a
refused sale, a sale of the whole stock and a sale of an unknown product. -/
theorem stock_nunca_negativo_witness :
    noNegativo tiendaWidget ∧ (∀ r ∈ peticionesEjemplo, r.2.esStock = true) ∧
    noNegativo (atenderTodas sumaSimple tiendaWidget peticionesEjemplo) :=
  ⟨by decide, by decide,
    stock_nunca_negativo sumaSimple tiendaWidget peticionesEjemplo (by decide) (by decide)⟩

/-- Witness for C6: restocking the Widget (5 on hand) with 10 gives 15. -/
theorem agregarCantidad_ok_witness :
    buscarProducto tiendaWidget 1 = some filaWidget ∧ (0 : Int) < 10 ∧
    ((agregarCantidad tiendaWidget 1 (some 10) fechaEjemplo).2
       = .mensajeId "Cantidad sumada y registrada correctamente" 1 ∧
     (agregarCantidad tiendaWidget 1 (some 10) fechaEjemplo).2.status = 200 ∧
     buscarProducto (agregarCantidad tiendaWidget 1 (some 10) fechaEjemplo).1 1
       = some { filaWidget with cantidad := 15 } ∧
     stock (agregarCantidad tiendaWidget 1 (some 10) fechaEjemplo).1 1 = some 15 ∧
     (∀ j, j ≠ 1 → buscarProducto (agregarCantidad tiendaWidget 1 (some 10) fechaEjemplo).1 j
       = buscarProducto tiendaWidget j) ∧
     (agregarCantidad tiendaWidget 1 (some 10) fechaEjemplo).1.productos.length
       = tiendaWidget.productos.length ∧
     (agregarCantidad tiendaWidget 1 (some 10) fechaEjemplo).1.productos_vendidos
       = tiendaWidget.productos_vendidos ∧
     ∃ e : RegistroProducto,
       (agregarCantidad tiendaWidget 1 (some 10) fechaEjemplo).1.registro_productos
         = tiendaWidget.registro_productos ++ [e] ∧
       e.producto_id = 1 ∧ e.cantidad = 10 ∧ e.accion = "cantidad agregada") :=
  ⟨rfl, by decide, agregarCantidad_ok tiendaWidget 1 filaWidget 10 fechaEjemplo rfl (by decide)⟩

/-- Witness for C7: restocking with `-4` is refused and changes nothing. -/
theorem agregarCantidad_no_positiva_witness :
    (-4 : Int) ≤ 0 ∧
    (agregarCantidad tiendaWidget 1 (some (-4)) fechaEjemplo
       = (tiendaWidget, .error 400 "La cantidad debe ser un número positivo") ∧
     (agregarCantidad tiendaWidget 1 (some (-4)) fechaEjemplo).2.status = 400) :=
  ⟨by decide, agregarCantidad_no_positiva tiendaWidget 1 (-4) fechaEjemplo (by decide)⟩

/-- Witness for C9, with plain double accumulation: the revenue of `2024-05`
is 0 on the Widget store, which has no sale, and 30 after the sale of 3 units
at price 10 in May 2024. -/
theorem ganancias_suma_del_mes_witness :
    "2024-05" ≠ "" ∧
    ganancias sumaSimple tiendaWidget (some "2024-05")
      = (tiendaWidget, .totalGanancias (some F64.cero)) ∧
    (ganancias sumaSimple tiendaWidget (some "2024-05")).2.status = 200 ∧
    (ganancias sumaSimple (vender tiendaWidget 1 (some 3) fechaEjemplo).1 (some "2024-05")).2
      = .totalGanancias (some (F64.ofInt 30)) := by
  have h := ganancias_suma_del_mes sumaSimple tiendaWidget "2024-05" (by decide)
  have h4 := h.2.2.2 sumaSimple_uno 1 filaWidget 3 fechaEjemplo (by decide) rfl (by decide)
    (by decide) (by decide)
  have e1 : F64.mul filaWidget.precio (F64.ofInt 3) = some (F64.ofInt 30) := by decide
  rw [e1] at h4
  exact ⟨by decide, h.2.2.1 (by decide), h.2.1, h4⟩

/-- The sum of `GET /api/ganancias` is a binary64 one: after two sales of 3
units at price `0.1` in May 2024 the revenue of `2024-05` under plain double
accumulation is `1351079888211149 * 2 ^ (-51)`, printed `0.6000000000000001`,
and not the double nearest to `0.6`, which is `5404319552844595 * 2 ^ (-53)`;
no sale falls in `2024-06`, whose revenue is 0. -/
theorem ganancias_dos_ventas_de_decimos :
    (ganancias sumaSimple
      (vender (vender tiendaCaramelo 1 (some 3) fechaEjemplo).1 1 (some 3) fechaEjemplo).1
      (some "2024-05")).2 = .totalGanancias (some (.finito 1351079888211149 (-51))) ∧
    F64.finito 1351079888211149 (-51) ≠ .finito 5404319552844595 (-53) ∧
    (ganancias sumaSimple
      (vender (vender tiendaCaramelo 1 (some 3) fechaEjemplo).1 1 (some 3) fechaEjemplo).1
      (some "2024-06")).2 = .totalGanancias (some F64.cero) := by
  decide

/-- Witness for C10: restocking the unknown product 7 with 4 units. -/
theorem agregarCantidad_inexistente_witness :
    buscarProducto tiendaWidget 7 = none ∧ (0 : Int) < 4 ∧
    ((agregarCantidad tiendaWidget 7 (some 4) fechaEjemplo).1.productos = tiendaWidget.productos ∧
     (agregarCantidad tiendaWidget 7 (some 4) fechaEjemplo).2
       = .mensajeId "Cantidad sumada y registrada correctamente" 7 ∧
     (agregarCantidad tiendaWidget 7 (some 4) fechaEjemplo).2.status = 200 ∧
     ∃ e : RegistroProducto,
       (agregarCantidad tiendaWidget 7 (some 4) fechaEjemplo).1.registro_productos
         = tiendaWidget.registro_productos ++ [e] ∧
       e.producto_id = 7 ∧ e.cantidad = 4 ∧ e.accion = "cantidad agregada") :=
  ⟨rfl, by decide, agregarCantidad_inexistente tiendaWidget 7 4 fechaEjemplo rfl (by decide)⟩

end BackRenda
